import Mathlib

/-!
Verification of the kernel execution layer of the PianoRay repository
(`src/driver/kernel.py`) and of the numeric property range checks
(`pianoray/api/props.py`), as a shallow embedding in Lean 4.

Modelling conventions:
  * Byte sequences exchanged on the child's standard streams are modelled
    as `String` (the payloads in question are UTF-8 JSON text).
  * Paths are abstract strings; `os.path.realpath` is modelled as the
    identity (paths are taken to be already canonical), `os.path.join a b`
    as `a ++ "/" ++ b`, and `os.path.basename` as the last `/`-separated
    component.
  * A directory is modelled by the list of names of its immediate entries,
    exactly what `os.listdir` returns (listing is non-recursive).
  * The ambient host environment (`shutil.which("python3")`,
    `shutil.which("java")`, evaluated at module load into the globals
    `PYTHON` and `JAVA`) is a `Host` record of two optional tool paths.
  * A child process is modelled by a `ChildBehaviour`: its exit code and
    its standard-output bytes as functions of the full standard-input
    contents it received.  This matches the half-duplex discipline of the
    layer: input is completely written and closed before any output or
    exit status is observed.
-/

/-- JSON values, the payloads of `json.dumps` on the input side. -/
inductive JsonValue where
  | null
  | bool (b : Bool)
  | num (n : Int)
  | str (s : String)
  | arr (elems : List JsonValue)
  | obj (fields : List (String × JsonValue))

/-- Escaping of one character inside a JSON string literal, as
`json.dumps` performs it for the characters we model. -/
def jsonEscapeChar (c : Char) : String :=
  if c = '"' then "\\\""
  else if c = '\\' then "\\\\"
  else if c = '\n' then "\\n"
  else String.singleton c

/-- Escaping of a whole string for a JSON string literal. -/
def jsonEscape (s : String) : String :=
  String.join (s.data.map jsonEscapeChar)

mutual

/-- `json.dumps` with Python's default separators `", "` and `": "`:
serialization of a `JsonValue` to its JSON text. -/
def dumps : JsonValue → String
  | .null => "null"
  | .bool true => "true"
  | .bool false => "false"
  | .num n => toString n
  | .str s => "\"" ++ jsonEscape s ++ "\""
  | .arr elems => "[" ++ dumpsList elems ++ "]"
  | .obj fields => "\x7b" ++ dumpsObj fields ++ "\x7d"

/-- Serialization of the comma-separated element list of a JSON array. -/
def dumpsList : List JsonValue → String
  | [] => ""
  | [v] => dumps v
  | v :: rest => dumps v ++ ", " ++ dumpsList rest

/-- Serialization of the comma-separated member list of a JSON object. -/
def dumpsObj : List (String × JsonValue) → String
  | [] => ""
  | [(k, v)] => "\"" ++ jsonEscape k ++ "\": " ++ dumps v
  | (k, v) :: rest =>
      "\"" ++ jsonEscape k ++ "\": " ++ dumps v ++ ", " ++ dumpsObj rest

end

/-- The host environment: results of the module-level lookups
`PYTHON = shutil.which("python3")` and `JAVA = shutil.which("java")`.
`shutil.which` returns the tool's path, or `None` when it is not found. -/
structure Host where
  python3 : Option String
  java : Option String
deriving Repr, DecidableEq

/-- The distinct failure conditions of the layer.  The source raises
`KernelException` everywhere; the conditions are distinguished by raise
site and message, and each constructor records one raise site:
  * `noEntryPoint` — `"Kernel directory has no main file."`
  * `runtimeUnavailable tool` — `"python3 not found."` / `"java not found."`
  * `unsupportedEntryType ext` — `"Invalid file ending: <ext>"`
  * `executionError` — the bare `raise KernelException()` in `Kernel.run`
    (the exception object carries no message, name or exit code)
  * `stillRunning` — `"Cannot read KernelRun.output while running."`
The source never raises a decode failure: no constructor corresponds to
the spec's `MalformedOutput`. -/
inductive KernelError where
  | noEntryPoint
  | runtimeUnavailable (tool : String)
  | unsupportedEntryType (ext : String)
  | executionError
  | stillRunning
deriving Repr, DecidableEq

/-- Python `str.lower()`: lowercase each character. -/
def pyLower (s : String) : String :=
  String.mk (s.data.map Char.toLower)

/-- Python `s.startswith(pre)`. -/
def pyStartsWith (s pre : String) : Bool :=
  pre.data.isPrefixOf s.data

/-- Splitting a character list at every occurrence of the separator
character, keeping empty pieces — the semantics of Python's
`str.split(sep)` for a one-character separator. -/
def splitCharAux (c : Char) : List Char → List Char → List (List Char)
  | [], acc => [acc.reverse]
  | x :: xs, acc =>
      if x = c then acc.reverse :: splitCharAux c xs []
      else splitCharAux c xs (x :: acc)

/-- Python `s.split(sep)` for a one-character separator `sep`. -/
def pySplit (s : String) (c : Char) : List String :=
  (splitCharAux c s.data []).map String.mk

/-- `os.path.basename`: the last `/`-separated component of a path. -/
def basename (p : String) : String :=
  (pySplit p '/').getLastD ""

/-- Python slicing `s[:-n]`: the string without its last `n` characters
(empty when `n ≥ len(s)`). -/
def sliceDropLast (s : String) (n : Nat) : String :=
  String.mk (s.data.take (s.data.length - n))

/-- A kernel descriptor, the `Kernel` class of `src/driver/kernel.py`:
`name` (basename of the directory), `dir_path`, `exe_path` (path of the
entry file), and `lang`, which the source annotates as `str` with the
intended values `"PYTHON"`, `"JAVA"`, `"EXEC"`. -/
structure Kernel where
  name : String
  dir_path : String
  exe_path : String
  lang : String
deriving Repr, DecidableEq

/-- `Kernel.__init__(path)`: filter the directory listing for names whose
lowercasing starts with `"main"`, take the first such entry (`next` on the
filter iterator; `StopIteration` becomes the no-main-file error), classify
by `entry.split(".")[-1]`:
`"py"` needs `PYTHON`, `"class"` needs `JAVA`, `"out"` needs nothing, and
any other ending is rejected.  On success the descriptor fields are set. -/
def Kernel.init (host : Host) (path : String) (listing : List String) :
    Except KernelError Kernel :=
  let files := listing.filter fun s => pyStartsWith (pyLower s) "main"
  match files with
  | [] => .error .noEntryPoint
  | entry :: _ =>
    let ext := (pySplit entry '.').getLastD ""
    if ext = "py" then
      if host.python3.isNone then .error (.runtimeUnavailable "python3")
      else .ok ⟨basename path, path, path ++ "/" ++ entry, "PYTHON"⟩
    else if ext = "class" then
      if host.java.isNone then .error (.runtimeUnavailable "java")
      else .ok ⟨basename path, path, path ++ "/" ++ entry, "JAVA"⟩
    else if ext = "out" then
      .ok ⟨basename path, path, path ++ "/" ++ entry, "EXEC"⟩
    else .error (.unsupportedEntryType ext)

/-- The static shape of a `Popen` call: argument vector, working
directory, and whether each standard stream was redirected to a pipe. -/
structure ProcSpec where
  argv : List String
  cwd : String
  stdinPipe : Bool
  stdoutPipe : Bool
  stderrPipe : Bool
deriving Repr, DecidableEq

/-- The `pre_args` assignment chain of `Kernel.proc`: an `if/elif` chain
over `self.lang` with no `else`, so a `lang` outside the three known
values leaves `pre_args` unbound (`NameError` in Python) — modelled as
`none`.  In the `"PYTHON"`/`"JAVA"` branches the source interpolates the
module globals `PYTHON`/`JAVA`; construction guarantees they are present
for the matching `lang`, so the `Option.getD ""` default is inert there.
The `"JAVA"` class name is `os.path.basename(self.exe_path)[:-6]`. -/
def Kernel.preArgs (host : Host) (k : Kernel) : Option (List String) :=
  if k.lang = "PYTHON" then some [host.python3.getD "", k.exe_path]
  else if k.lang = "JAVA" then
    some [host.java.getD "", sliceDropLast (basename k.exe_path) 6]
  else if k.lang = "EXEC" then some [k.exe_path]
  else none

/-- `Kernel.proc(args)`: `Popen(pre_args + args, stdin=PIPE, stdout=PIPE,
cwd=self.dir_path)` — standard error is not redirected. -/
def Kernel.proc (host : Host) (k : Kernel) (args : List String) :
    Option ProcSpec :=
  (k.preArgs host).map fun pre =>
    ⟨pre ++ args, k.dir_path, true, true, false⟩

/-- The observable behaviour of one child process under the half-duplex
discipline: exit code and standard-output bytes as functions of the full
standard-input contents received before end-of-input. -/
structure ChildBehaviour where
  exitCode : String → Int
  stdout : String → String

/-- The dynamic state of one launched child process. -/
structure ProcState where
  spec : ProcSpec
  behaviour : ChildBehaviour
  stdinData : String
  stdinClosed : Bool
  hasExited : Bool
  stdoutReads : Nat

/-- `proc.stdin.write(bytes)`: append to the input stream contents. -/
def ProcState.writeStdin (p : ProcState) (bytes : String) : ProcState :=
  { p with stdinData := p.stdinData ++ bytes }

/-- `proc.stdin.flush()`: no observable effect in the model. -/
def ProcState.flushStdin (p : ProcState) : ProcState := p

/-- `proc.stdin.close()`: the end-of-input signal. -/
def ProcState.closeStdin (p : ProcState) : ProcState :=
  { p with stdinClosed := true }

/-- `proc.poll()`: non-blocking; `None` while the child is still running,
the exit code once it has exited. -/
def ProcState.poll (p : ProcState) : Option Int :=
  if p.hasExited then some (p.behaviour.exitCode p.stdinData) else none

/-- `proc.wait()`: block until the child exits; afterwards it has. -/
def ProcState.waitProc (p : ProcState) : ProcState :=
  { p with hasExited := true }

/-- The child exiting on its own (a scheduler step, not an API call). -/
def ProcState.stepExit (p : ProcState) : ProcState :=
  { p with hasExited := true }

/-- Modelled from the spec: `readall` from `pianoray/utils.py` is not
under `src/`; spec §4.3 describes it as draining "the output stream fully
to end-of-stream" and returning "an opaque byte sequence — the caller
... is responsible for decoding".  The bytes drained, given the
half-duplex discipline. -/
def ProcState.readallData (p : ProcState) : String :=
  p.behaviour.stdout p.stdinData

/-- Modelled from the spec: `readall(proc.stdout)` — drain the output
stream, counting the drain so that at-most-once reading is observable. -/
def ProcState.readall (p : ProcState) : String × ProcState :=
  (p.readallData, { p with stdoutReads := p.stdoutReads + 1 })

/-- A freshly launched process: nothing written, streams open, child
still running, output stream never drained. -/
def ProcState.launch (ps : ProcSpec) (b : ChildBehaviour) : ProcState :=
  ⟨ps, b, "", false, false, 0⟩

/-- The message of `logger.error` in `Kernel.run`.  The source reads
`logger.error(f"Kernel {self.name} exited with code " "{proc.returncode}")`:
two adjacent string literals, only the first an f-string, so the second
stays the literal text `\x7bproc.returncode\x7d` — the exit code is never
interpolated into the log. -/
def kernelErrorLogMsg (k : Kernel) : String :=
  ("Kernel " ++ k.name ++ " exited with code ") ++ "\x7bproc.returncode\x7d"

/-- `Kernel.run(stdin, args)` with its final process state: launch,
write the given bytes, flush, close, wait; on non-zero exit, log and
`raise KernelException()` without touching the output stream; on zero
exit, drain the output stream and return the bytes.  `none` models the
`NameError` of an unbound `pre_args`. -/
def Kernel.runWith (host : Host) (b : ChildBehaviour) (k : Kernel)
    (stdin : String) (args : List String) :
    Option (Except KernelError String × ProcState) :=
  (Kernel.proc host k args).map fun ps =>
    let p := ((((ProcState.launch ps b).writeStdin stdin).flushStdin
      ).closeStdin).waitProc
    match p.poll with
    | some code =>
        if code ≠ 0 then (.error .executionError, p)
        else
          let (data, p2) := p.readall
          (.ok data, p2)
    | none => (.error .executionError, p)

/-- `Kernel.run(stdin, args)`: the returned bytes or raised error. -/
def Kernel.run (host : Host) (b : ChildBehaviour) (k : Kernel)
    (stdin : String) (args : List String) :
    Option (Except KernelError String) :=
  (Kernel.runWith host b k stdin args).map Prod.fst

/-- The `KernelRun` handle state: the kernel, the owned process, the
output cache `_output` (initially `None`) and the latch `_read_output`. -/
structure KernelRunState where
  kernel : Kernel
  proc : ProcState
  outputCache : Option String
  readOutputFlag : Bool

/-- `KernelRun.__init__(kernel, stdin, args)`: open the process, write
`json.dumps(stdin).encode()`, write `b"\n"`, flush, close — and return
the handle immediately, without waiting for exit.  `none` models the
`NameError` of an unbound `pre_args` inside `kernel.proc`. -/
def KernelRun.init (host : Host) (b : ChildBehaviour) (k : Kernel)
    (stdin : JsonValue) (args : List String) : Option KernelRunState :=
  (Kernel.proc host k args).map fun ps =>
    let p := ((((ProcState.launch ps b).writeStdin (dumps stdin)
      ).writeStdin "\n").flushStdin).closeStdin
    ⟨k, p, none, false⟩

/-- The `alive` property: the source returns `self.proc.poll() is not
None` — which is `True` exactly when the process HAS exited. -/
def KernelRunState.alive (r : KernelRunState) : Bool :=
  (r.proc.poll).isSome

/-- `KernelRun.wait()`: `self.proc.wait()`. -/
def KernelRunState.wait (r : KernelRunState) : KernelRunState :=
  { r with proc := r.proc.waitProc }

/-- The `output` property, state-passing: raise while the process is
still running (leaving the handle untouched); once it has exited, drain
the output stream on the first access, cache the bytes and set the latch;
afterwards return the cached bytes.  No JSON decoding is performed: the
raw `readall` bytes are returned. -/
def KernelRunState.output (r : KernelRunState) :
    Except KernelError String × KernelRunState :=
  match r.proc.poll with
  | none => (.error .stillRunning, r)
  | some _ =>
      if r.readOutputFlag then (.ok (r.outputCache.getD ""), r)
      else
        let (data, p2) := r.proc.readall
        (.ok data, ⟨r.kernel, p2, some data, true⟩)

/-- The `KernelWrapper` façade: holds one kernel. -/
structure KernelWrapper where
  kernel : Kernel

/-- `KernelWrapper.__call__(obj, async_, args)`: always construct a
`KernelRun` (JSON-encoded input plus newline); with the async flag return
the handle, otherwise `run.wait()` then return `run.output`.  The
synchronous path never consults the exit code. -/
def KernelWrapper.call (host : Host) (b : ChildBehaviour)
    (w : KernelWrapper) (obj : JsonValue) (asyncFlag : Bool)
    (args : List String) :
    Option (Except KernelError (KernelRunState ⊕ String)) :=
  (KernelRun.init host b w.kernel obj args).map fun run =>
    if asyncFlag then .ok (.inl run)
    else
      let r2 := run.wait
      match r2.output with
      | (.ok data, _) => .ok (.inr data)
      | (.error e, _) => .error e

/-- The `min`/`max` data of `IntProp` (`pianoray/api/props.py`): the
constructor stores `min`, `max` (each optionally `None`) and `coords`. -/
structure IntProp where
  min : Option Int
  max : Option Int
  coords : Bool

/-- `IntProp.verify(value)`: `if self.min is not None and value < self.min:
return False`, then `if self.max is not None and value > self.min: return
False`, then `return True`.  The second condition compares against
`self.min`; when `min` is `None` but `max` is set, Python evaluates
`value > None` and raises `TypeError` (modelled as `.error`). -/
def IntProp.verify (p : IntProp) (value : Int) : Except String Bool :=
  match p.min with
  | some m =>
      if value < m then .ok false
      else
        match p.max with
        | some _ => if value > m then .ok false else .ok true
        | none => .ok true
  | none =>
      match p.max with
      | some _ => .error "TypeError: int and NoneType are not comparable"
      | none => .ok true

/-- The `min`/`max` data of `FloatProp` (`pianoray/api/props.py`).  The
stored values are Python floats; only order comparisons are performed on
them, which are exact, so they are modelled as rationals. -/
structure FloatProp where
  min : Option Rat
  max : Option Rat
  coords : Bool

/-- `FloatProp.verify(value)`: textually identical logic to
`IntProp.verify`, including the `value > self.min` upper-bound check. -/
def FloatProp.verify (p : FloatProp) (value : Rat) : Except String Bool :=
  match p.min with
  | some m =>
      if value < m then .ok false
      else
        match p.max with
        | some _ => if value > m then .ok false else .ok true
        | none => .ok true
  | none =>
      match p.max with
      | some _ => .error "TypeError: float and NoneType are not comparable"
      | none => .ok true

/-- A host on which both `python3` and `java` are discoverable. -/
def fullHost : Host := ⟨some "/usr/bin/python3", some "/usr/bin/java"⟩

/-- A concrete Python-runtime kernel descriptor, as produced by
`Kernel.init fullHost "/kernels/kern" ["main.py"]`. -/
def kern0 : Kernel := ⟨"kern", "/kernels/kern", "/kernels/kern/main.py", "PYTHON"⟩

/-- A child that echoes its standard input to standard output verbatim
and exits 0. -/
def echoChild : ChildBehaviour := ⟨fun _ => 0, fun s => s⟩

/-- A child that exits 1 after writing `"boom"` to standard output. -/
def failChild : ChildBehaviour := ⟨fun _ => 1, fun _ => "boom"⟩

/-- A child that exits 0 after writing `"not json"` (not a JSON document)
to standard output. -/
def notJsonChild : ChildBehaviour := ⟨fun _ => 0, fun _ => "not json"⟩

/-- Stripping the 6-character suffix `".class"` by Python's `[:-6]`
recovers the stem. -/
theorem sliceDropLast_class_suffix (s : String) :
    sliceDropLast (s ++ ".class") 6 = s := by
  have hdata : (s ++ ".class").data = s.data ++ (".class").data :=
    String.data_append s ".class"
  have hlen : (".class").data.length = 6 := by decide
  have : (s.data ++ (".class").data).length - 6 = s.data.length := by
    simp [List.length_append, hlen]
  simp only [sliceDropLast, hdata, this, List.take_left]

/-- C5: descriptor resolution scans the immediate directory listing for
names whose lowercasing starts with `"main"`; zero matches fail with the
no-entry-point error; otherwise the first match is classified by its
final `.`-separated component: `"py"` gives lang `"PYTHON"` (the spec's
NativeScript) and requires `python3` on the host, `"class"` gives
`"JAVA"` (ManagedBytecode) and requires `java`, `"out"` gives `"EXEC"`
(CompiledExecutable) with no host requirement, and any other ending fails
with the unsupported-entry-type error. -/
theorem kernel_init_resolution (host : Host) (path : String)
    (listing : List String) :
    (listing.filter (fun s => pyStartsWith (pyLower s) "main") = [] →
      Kernel.init host path listing = .error .noEntryPoint)
  ∧ (∀ entry rest,
      listing.filter (fun s => pyStartsWith (pyLower s) "main") = entry :: rest →
      ((pySplit entry '.').getLastD "" = "py" →
          (host.python3 = none →
            Kernel.init host path listing =
              .error (.runtimeUnavailable "python3"))
        ∧ (∀ tool, host.python3 = some tool →
            Kernel.init host path listing =
              .ok ⟨basename path, path, path ++ "/" ++ entry, "PYTHON"⟩))
    ∧ ((pySplit entry '.').getLastD "" = "class" →
          (host.java = none →
            Kernel.init host path listing =
              .error (.runtimeUnavailable "java"))
        ∧ (∀ tool, host.java = some tool →
            Kernel.init host path listing =
              .ok ⟨basename path, path, path ++ "/" ++ entry, "JAVA"⟩))
    ∧ ((pySplit entry '.').getLastD "" = "out" →
          Kernel.init host path listing =
            .ok ⟨basename path, path, path ++ "/" ++ entry, "EXEC"⟩)
    ∧ ((pySplit entry '.').getLastD "" ≠ "py" →
        (pySplit entry '.').getLastD "" ≠ "class" →
        (pySplit entry '.').getLastD "" ≠ "out" →
          Kernel.init host path listing =
            .error (.unsupportedEntryType ((pySplit entry '.').getLastD "")))) := by
  constructor
  · intro hf
    simp only [Kernel.init, hf]
  · intro entry rest hf
    have hinit : Kernel.init host path listing =
        (if (pySplit entry '.').getLastD "" = "py" then
          if host.python3.isNone then .error (.runtimeUnavailable "python3")
          else .ok ⟨basename path, path, path ++ "/" ++ entry, "PYTHON"⟩
        else if (pySplit entry '.').getLastD "" = "class" then
          if host.java.isNone then .error (.runtimeUnavailable "java")
          else .ok ⟨basename path, path, path ++ "/" ++ entry, "JAVA"⟩
        else if (pySplit entry '.').getLastD "" = "out" then
          .ok ⟨basename path, path, path ++ "/" ++ entry, "EXEC"⟩
        else .error (.unsupportedEntryType ((pySplit entry '.').getLastD ""))) := by
      simp only [Kernel.init, hf]
    refine ⟨fun hext => ⟨fun hpy => ?_, fun tool hpy => ?_⟩,
            fun hext => ⟨fun hjv => ?_, fun tool hjv => ?_⟩,
            fun hext => ?_, fun h1 h2 h3 => ?_⟩
    · rw [hinit, if_pos hext, hpy]
      rfl
    · rw [hinit, if_pos hext, hpy]
      rfl
    · rw [hinit, if_neg (by rw [hext]; decide), if_pos hext, hjv]
      rfl
    · rw [hinit, if_neg (by rw [hext]; decide), if_pos hext, hjv]
      rfl
    · rw [hinit, if_neg (by rw [hext]; decide),
        if_neg (by rw [hext]; decide), if_pos hext]
    · rw [hinit, if_neg h1, if_neg h2, if_neg h3]

/-- C5 witness: a directory listing `["main.py"]` on a host with both
tools resolves to a `"PYTHON"` descriptor. -/
theorem kernel_init_resolution_witness :
    Kernel.init fullHost "/kernels/kern" ["main.py"] =
      .ok ⟨basename "/kernels/kern", "/kernels/kern",
           "/kernels/kern" ++ "/" ++ "main.py", "PYTHON"⟩ :=
  (((kernel_init_resolution fullHost "/kernels/kern" ["main.py"]).2
      "main.py" [] (by decide)).1 (by decide)).2 "/usr/bin/python3" rfl

/-- C7: the launcher's argument vector is `[scriptRuntime, entryPath,
...extraArgs]` for lang `"PYTHON"`, `[bytecodeRuntime, className,
...extraArgs]` for lang `"JAVA"` where `className` is the entry file's
basename with the `".class"` suffix stripped, and `[entryPath,
...extraArgs]` for lang `"EXEC"`; in every case the extra arguments
follow the runtime-specific prefix in order, the working directory is the
descriptor's directory, and standard input and output are pipes while
standard error is not redirected. -/
theorem kernel_proc_argv (host : Host) (k : Kernel) (args : List String) :
    (∀ py, k.lang = "PYTHON" → host.python3 = some py →
      Kernel.proc host k args =
        some ⟨py :: k.exe_path :: args, k.dir_path, true, true, false⟩)
  ∧ (∀ jv cls, k.lang = "JAVA" → host.java = some jv →
      basename k.exe_path = cls ++ ".class" →
      Kernel.proc host k args =
        some ⟨jv :: cls :: args, k.dir_path, true, true, false⟩)
  ∧ (k.lang = "EXEC" →
      Kernel.proc host k args =
        some ⟨k.exe_path :: args, k.dir_path, true, true, false⟩) := by
  refine ⟨fun py hl hpy => ?_, fun jv cls hl hjv hcls => ?_, fun hl => ?_⟩
  · simp [Kernel.proc, Kernel.preArgs, hl, hpy]
  · simp [Kernel.proc, Kernel.preArgs, hl, hjv, hcls,
      sliceDropLast_class_suffix]
  · simp [Kernel.proc, Kernel.preArgs, hl]

/-- A concrete Java-runtime kernel descriptor, as produced by
`Kernel.init fullHost "/kernels/kj" ["main.class"]`. -/
def kernJava : Kernel :=
  ⟨"kj", "/kernels/kj", "/kernels/kj/main.class", "JAVA"⟩

/-- C7 witness: concrete argument vectors for a Python kernel and a Java
kernel (whose class name is the basename with `".class"` stripped). -/
theorem kernel_proc_argv_witness :
    Kernel.proc fullHost kern0 ["x"] =
      some ⟨"/usr/bin/python3" :: kern0.exe_path :: ["x"],
            kern0.dir_path, true, true, false⟩
  ∧ Kernel.proc fullHost kernJava ["x"] =
      some ⟨"/usr/bin/java" :: "main" :: ["x"],
            kernJava.dir_path, true, true, false⟩ :=
  ⟨(kernel_proc_argv fullHost kern0 ["x"]).1 "/usr/bin/python3" rfl rfl,
   (kernel_proc_argv fullHost kernJava ["x"]).2.1 "/usr/bin/java" "main"
     rfl rfl (by decide)⟩

/-- C8: starting an asynchronous run writes exactly the JSON encoding of
the input followed by a single newline to the child's input stream, then
closes the stream, and returns the handle without waiting for process
exit (the returned handle's process has not been waited on, its output
cache is empty and its read latch is unset). -/
theorem kernelrun_start_framing (host : Host) (b : ChildBehaviour)
    (k : Kernel) (stdin : JsonValue) (args : List String) (ps : ProcSpec)
    (h : Kernel.proc host k args = some ps) :
    KernelRun.init host b k stdin args =
      some ⟨k, ⟨ps, b, dumps stdin ++ "\n", true, false, 0⟩, none, false⟩ := by
  simp [KernelRun.init, h, ProcState.launch, ProcState.writeStdin,
    ProcState.flushStdin, ProcState.closeStdin]

/-- C8 witness: the concrete handle for JSON input `2`. -/
theorem kernelrun_start_framing_witness :
    KernelRun.init fullHost echoChild kern0 (.num 2) [] =
      some ⟨kern0,
        ⟨⟨["/usr/bin/python3", "/kernels/kern/main.py"], "/kernels/kern",
          true, true, false⟩,
         echoChild, dumps (.num 2) ++ "\n", true, false, 0⟩,
        none, false⟩ :=
  kernelrun_start_framing fullHost echoChild kern0 (.num 2) []
    ⟨["/usr/bin/python3", "/kernels/kern/main.py"], "/kernels/kern",
      true, true, false⟩ rfl

/-- C9: in `IntProp.verify` and `FloatProp.verify` the upper-bound check
compares the value against `min` rather than `max`: whenever both bounds
are set and the value exceeds `min`, verification returns `False`, even
when the value is at most `max`. -/
theorem numeric_verify_upper_bound_uses_min :
    (∀ (p : IntProp) (m mx value : Int), p.min = some m → p.max = some mx →
      m < value → value ≤ mx → p.verify value = .ok false)
  ∧ (∀ (p : FloatProp) (m mx value : Rat), p.min = some m → p.max = some mx →
      m < value → value ≤ mx → p.verify value = .ok false) := by
  constructor
  · intro p m mx value hm hmx hlt _
    simp [IntProp.verify, hm, hmx, not_lt.mpr (le_of_lt hlt), hlt]
  · intro p m mx value hm hmx hlt _
    simp [FloatProp.verify, hm, hmx, not_lt.mpr (le_of_lt hlt), hlt]

/-- C9 witness: with `min = 0` and `max = 10`, the value `5` (within both
intended bounds) is rejected by both the integer and the float check. -/
theorem numeric_verify_upper_bound_uses_min_witness :
    IntProp.verify ⟨some 0, some 10, false⟩ 5 = .ok false
  ∧ FloatProp.verify ⟨some 0, some 10, false⟩ 5 = .ok false :=
  ⟨numeric_verify_upper_bound_uses_min.1 ⟨some 0, some 10, false⟩ 0 10 5
      rfl rfl (by decide) (by decide),
   numeric_verify_upper_bound_uses_min.2 ⟨some 0, some 10, false⟩ 0 10 5
      rfl rfl (by decide) (by decide)⟩

/-- C10: every descriptor produced by successful construction has lang
exactly one of `"PYTHON"`, `"JAVA"`, `"EXEC"`, so the `if/elif` chain of
the launcher always binds `pre_args`: the fall-through in which
`pre_args` would be unbound is unreachable. -/
theorem kernel_lang_closed (host : Host) (path : String)
    (listing : List String) (k : Kernel) (args : List String)
    (h : Kernel.init host path listing = .ok k) :
    (k.lang = "PYTHON" ∨ k.lang = "JAVA" ∨ k.lang = "EXEC")
  ∧ (Kernel.proc host k args).isSome := by
  have hlang : k.lang = "PYTHON" ∨ k.lang = "JAVA" ∨ k.lang = "EXEC" := by
    unfold Kernel.init at h
    rcases hfl : listing.filter (fun s => pyStartsWith (pyLower s) "main")
      with _ | ⟨entry, rest⟩
    · simp only [hfl] at h
      exact Except.noConfusion h
    · simp only [hfl] at h
      split_ifs at h <;>
        first
          | exact Except.noConfusion h
          | (injection h with h2; rw [← h2]; exact Or.inl rfl)
          | (injection h with h2; rw [← h2]; exact Or.inr (Or.inl rfl))
          | (injection h with h2; rw [← h2]; exact Or.inr (Or.inr rfl))
  refine ⟨hlang, ?_⟩
  rcases hlang with hl | hl | hl <;>
    simp [Kernel.proc, Kernel.preArgs, hl]

/-- C10 witness: the descriptor resolved from a `["main.out"]` listing
has lang `"EXEC"` and a defined argument-vector prefix. -/
theorem kernel_lang_closed_witness :
    ((⟨"kern", "/kernels/kern", "/kernels/kern" ++ "/" ++ "main.out",
        "EXEC"⟩ : Kernel).lang = "PYTHON"
      ∨ (⟨"kern", "/kernels/kern", "/kernels/kern" ++ "/" ++ "main.out",
          "EXEC"⟩ : Kernel).lang = "JAVA"
      ∨ (⟨"kern", "/kernels/kern", "/kernels/kern" ++ "/" ++ "main.out",
          "EXEC"⟩ : Kernel).lang = "EXEC")
  ∧ (Kernel.proc fullHost
      ⟨"kern", "/kernels/kern", "/kernels/kern" ++ "/" ++ "main.out",
        "EXEC"⟩ []).isSome :=
  kernel_lang_closed fullHost "/kernels/kern" ["main.out"]
    ⟨"kern", "/kernels/kern", "/kernels/kern" ++ "/" ++ "main.out", "EXEC"⟩
    [] rfl

/-- C6: requesting output while the process has not exited fails with the
still-running error and returns the handle unchanged; once the process
has exited, the first read drains the underlying stream (its drain count
rises by one) and from the resulting handle every further read returns
the identical value with an identical handle — so the stream is drained
at most once over the handle's lifetime. -/
theorem kernelrun_output_guard_and_cache (r : KernelRunState) :
    (r.proc.poll = none → r.output = (.error .stillRunning, r))
  ∧ (∀ c, r.proc.poll = some c → r.readOutputFlag = false →
      (r.output).1 = .ok r.proc.readallData
      ∧ (r.output).2.proc.stdoutReads = r.proc.stdoutReads + 1
      ∧ (r.output).2.output = ((r.output).1, (r.output).2)) := by
  constructor
  · intro hpoll
    simp [KernelRunState.output, hpoll]
  · intro c hpoll hflag
    have hpoll2 : ({ r.proc with stdoutReads := r.proc.stdoutReads + 1
        } : ProcState).poll = some c := by
      simpa [ProcState.poll] using hpoll
    refine ⟨?_, ?_, ?_⟩ <;>
      simp [KernelRunState.output, hpoll, hflag, hpoll2,
        ProcState.readall, ProcState.readallData]

/-- A concrete handle whose child (stdout `"not json"`, exit 0) is still
running, before any output read. -/
def runningRun : KernelRunState :=
  ⟨kern0,
   ⟨⟨["/usr/bin/python3", "/kernels/kern/main.py"], "/kernels/kern",
     true, true, false⟩,
    notJsonChild, "2\n", true, false, 0⟩,
   none, false⟩

/-- A concrete handle whose child (stdout `"not json"`, exit 0) has
already exited, before any output read. -/
def exitedRun : KernelRunState :=
  ⟨kern0,
   ⟨⟨["/usr/bin/python3", "/kernels/kern/main.py"], "/kernels/kern",
     true, true, false⟩,
    notJsonChild, "2\n", true, true, 0⟩,
   none, false⟩

/-- C6 witness: the guard and the caching behaviour at the two concrete
handles. -/
theorem kernelrun_output_guard_and_cache_witness :
    runningRun.output = (.error .stillRunning, runningRun)
  ∧ ((exitedRun.output).1 = .ok exitedRun.proc.readallData
      ∧ (exitedRun.output).2.proc.stdoutReads = exitedRun.proc.stdoutReads + 1
      ∧ (exitedRun.output).2.output = ((exitedRun.output).1, (exitedRun.output).2)) :=
  ⟨(kernelrun_output_guard_and_cache runningRun).1 rfl,
   (kernelrun_output_guard_and_cache exitedRun).2 0 rfl rfl⟩

/-- Helper: evaluation of the façade's synchronous style.  The call
constructs the async handle (writing the JSON-encoded input plus a
newline), waits, and returns the raw drained output bytes — with no
exit-status check and no JSON decoding of the output. -/
theorem call_sync_eval (host : Host) (b : ChildBehaviour)
    (w : KernelWrapper) (obj : JsonValue) (args : List String)
    (ps : ProcSpec) (hp : Kernel.proc host w.kernel args = some ps) :
    KernelWrapper.call host b w obj false args
      = some (.ok (.inr (b.stdout (dumps obj ++ "\n")))) := by
  simp [KernelWrapper.call, KernelRun.init, hp, KernelRunState.wait,
    KernelRunState.output, ProcState.launch, ProcState.writeStdin,
    ProcState.flushStdin, ProcState.closeStdin, ProcState.waitProc,
    ProcState.poll, ProcState.readall, ProcState.readallData]

/-- C1: evaluation of the `alive` query at the failing input.  For a
handle whose process has not yet exited (`poll` is `None`), `alive`
returns `false`; after the process exits it returns `true`.  The source
computes `self.proc.poll() is not None`, the inverse of the liveness the
spec states. -/
theorem alive_inverted_eval :
    runningRun.proc.poll = none ∧ runningRun.alive = false
  ∧ (runningRun.wait).proc.poll = some 0
  ∧ (runningRun.wait).alive = true :=
  ⟨rfl, rfl, rfl, rfl⟩

/-- C2 counterexample: a kernel whose child exits with status 1 after
writing `"boom"`.  The façade's synchronous-style call does not fail: it
returns the drained output bytes.  Moreover the error log line produced
on the raw-run path carries the literal text `\x7bproc.returncode\x7d`
(the second string literal is not an f-string), not the exit code. -/
theorem sync_failure_surfacing_cex :
    KernelWrapper.call fullHost failChild ⟨kern0⟩ (.num 2) false []
      = some (.ok (.inr "boom"))
  ∧ kernelErrorLogMsg kern0
      = "Kernel kern exited with code \x7bproc.returncode\x7d" :=
  ⟨rfl, rfl⟩

/-- C2 (amended): for the raw byte-level run, a non-zero exit status
makes the call fail with the bare execution error — the exception carries
no name and no exit code, and the log line, while naming the kernel,
contains the literal placeholder text in place of the code — and the run
terminates without draining the output stream (the final process state
has drain count 0).  The façade's synchronous style, by contrast,
performs no exit-status check at all and returns the raw drained output
bytes whatever the exit code. -/
theorem run_nonzero_exit_behaviour (host : Host) (b : ChildBehaviour)
    (k : Kernel) (stdin : String) (obj : JsonValue) (args : List String)
    (ps : ProcSpec) (hp : Kernel.proc host k args = some ps)
    (hc : b.exitCode stdin ≠ 0) :
    Kernel.runWith host b k stdin args
      = some (.error .executionError, ⟨ps, b, stdin, true, true, 0⟩)
  ∧ (⟨ps, b, stdin, true, true, 0⟩ : ProcState).stdoutReads = 0
  ∧ kernelErrorLogMsg k
      = ("Kernel " ++ k.name ++ " exited with code ")
          ++ "\x7bproc.returncode\x7d"
  ∧ KernelWrapper.call host b ⟨k⟩ obj false args
      = some (.ok (.inr (b.stdout (dumps obj ++ "\n")))) := by
  refine ⟨?_, rfl, rfl, call_sync_eval host b ⟨k⟩ obj args ps hp⟩
  simp [Kernel.runWith, hp, ProcState.launch, ProcState.writeStdin,
    ProcState.flushStdin, ProcState.closeStdin, ProcState.waitProc,
    ProcState.poll, hc]

/-- C2 witness: the amended behaviour at the concrete failing kernel. -/
theorem run_nonzero_exit_behaviour_witness :
    Kernel.runWith fullHost failChild kern0 "2" []
      = some (.error .executionError,
          ⟨⟨["/usr/bin/python3", "/kernels/kern/main.py"], "/kernels/kern",
            true, true, false⟩, failChild, "2", true, true, 0⟩)
  ∧ (⟨⟨["/usr/bin/python3", "/kernels/kern/main.py"], "/kernels/kern",
        true, true, false⟩, failChild, "2", true, true, 0⟩
        : ProcState).stdoutReads = 0
  ∧ kernelErrorLogMsg kern0
      = ("Kernel " ++ kern0.name ++ " exited with code ")
          ++ "\x7bproc.returncode\x7d"
  ∧ KernelWrapper.call fullHost failChild ⟨kern0⟩ (.num 2) false []
      = some (.ok (.inr (failChild.stdout (dumps (.num 2) ++ "\n")))) :=
  run_nonzero_exit_behaviour fullHost failChild kern0 "2" (.num 2) []
    ⟨["/usr/bin/python3", "/kernels/kern/main.py"], "/kernels/kern",
      true, true, false⟩ rfl (by decide)

/-- C3 counterexample: a handle whose exited child wrote `"not json"` —
not a JSON document — to its output: the output read succeeds and returns
those raw bytes as they are.  No JSON decoding is attempted, and no
malformed-output failure occurs for any output bytes. -/
theorem output_no_json_decode_cex :
    (exitedRun.output).1 = .ok "not json" := rfl

/-- C3 (amended): for every handle whose process has exited and whose
output has not yet been read, reading the output property drains the full
output stream exactly once and returns the raw bytes, undecoded; the
bytes are cached in the handle. -/
theorem output_drains_raw_bytes (r : KernelRunState) (c : Int)
    (hexit : r.proc.poll = some c) (hflag : r.readOutputFlag = false) :
    (r.output).1 = .ok r.proc.readallData
  ∧ (r.output).2.outputCache = some r.proc.readallData
  ∧ (r.output).2.proc.stdoutReads = r.proc.stdoutReads + 1 := by
  refine ⟨?_, ?_, ?_⟩ <;>
    simp [KernelRunState.output, hexit, hflag, ProcState.readall,
      ProcState.readallData]

/-- C3 witness: the amended behaviour at the concrete exited handle. -/
theorem output_drains_raw_bytes_witness :
    (exitedRun.output).1 = .ok exitedRun.proc.readallData
  ∧ (exitedRun.output).2.outputCache = some exitedRun.proc.readallData
  ∧ (exitedRun.output).2.proc.stdoutReads = exitedRun.proc.stdoutReads + 1 :=
  output_drains_raw_bytes exitedRun 0 rfl rfl

/-- C4 counterexample: the echo kernel with JSON input `2`.  The §4.3
byte-level run applied to the JSON encoding `"2"` returns the bytes
`"2"`, whose decoding is the original input; the façade's synchronous
call instead returns the raw bytes `"2\n"` — the newline-framed,
undecoded stream contents — which differ from `"2"`.  The call is thus
not the §4.3 composition, and its result is bytes, not the decoded
original input. -/
theorem facade_sync_not_run_composition_cex :
    dumps (.num 2) = "2"
  ∧ Kernel.run fullHost echoChild kern0 "2" [] = some (.ok "2")
  ∧ KernelWrapper.call fullHost echoChild ⟨kern0⟩ (.num 2) false []
      = some (.ok (.inr "2\n"))
  ∧ ("2\n" : String) ≠ "2" :=
  ⟨rfl, rfl, rfl, by decide⟩

/-- C4 (amended): the façade's synchronous style JSON-encodes the input,
appends a newline, drives the child to completion and returns the raw
drained output bytes with no JSON decoding and no exit-status check; for
a kernel that echoes its input the result is the JSON encoding of the
original input followed by the newline terminator, not the decoded
original object. -/
theorem facade_sync_raw_result (host : Host) (b : ChildBehaviour)
    (w : KernelWrapper) (obj : JsonValue) (args : List String)
    (ps : ProcSpec) (hp : Kernel.proc host w.kernel args = some ps) :
    KernelWrapper.call host b w obj false args
      = some (.ok (.inr (b.stdout (dumps obj ++ "\n"))))
  ∧ (b.stdout = id →
      KernelWrapper.call host b w obj false args
        = some (.ok (.inr (dumps obj ++ "\n")))) := by
  have hmain := call_sync_eval host b w obj args ps hp
  refine ⟨hmain, fun hid => ?_⟩
  rw [hmain, hid]
  rfl

/-- C4 witness: the amended behaviour at the concrete echo kernel. -/
theorem facade_sync_raw_result_witness :
    KernelWrapper.call fullHost echoChild ⟨kern0⟩ (.num 2) false []
      = some (.ok (.inr (echoChild.stdout (dumps (.num 2) ++ "\n"))))
  ∧ (echoChild.stdout = id →
      KernelWrapper.call fullHost echoChild ⟨kern0⟩ (.num 2) false []
        = some (.ok (.inr (dumps (.num 2) ++ "\n")))) :=
  facade_sync_raw_result fullHost echoChild ⟨kern0⟩ (.num 2) []
    ⟨["/usr/bin/python3", "/kernels/kern/main.py"], "/kernels/kern",
      true, true, false⟩ rfl
